import Mathlib

/-!
Shallow embedding of the configuration-resolution subsystem of the
zenodo-deposit repository (src/zenodo_deposit/config.py and the small
helpers of src/zenodo_deposit/cli.py that it feeds).

Modelling conventions:
* Python `dict` values (TOML documents and sections) are association lists
  with string keys, read through `List.lookup`, which matches `dict.get`
  on the duplicate-free lists produced by a TOML parser.
* The filesystem is a function `FS` from a path to `none` (path absent,
  `open` raises `FileNotFoundError`), `some none` (file present but not
  valid TOML, `tomllib.load` raises), or `some (some doc)` (parses to
  `doc`).  `os.path.exists p` is `(fs p).isSome`.
* The process environment is a function `String → Option String`
  (`os.environ` membership and access).
* `str.strip()` is `pyStrip`, trimming the ASCII whitespace characters
  Python strips; `f"...{config}"` formatting of a `dict` of simple strings
  is `reprSection`, producing Python's `{'k': 'v', ...}` form.
* Exceptions become `Except ConfigError`; `validate_zenodo_config` is
  state-passing (it returns the section it was given, since the Python
  function only reads it).
* The `functools.lru_cache` on `config_section` is modelled twice: once at
  the value level (`config_section_cached`, for what data a call returns)
  and once over an explicit heap of allocated sections
  (`config_section_heap`, for object identity: a cache hit returns the
  very object stored by the earlier call).  Eviction at `maxsize=32` is
  not modelled; every scenario proved below touches at most one entry.
-/

/-- One parsed TOML section: a Python `Dict[str, str]`. -/
abbrev ConfigSection := List (String × String)

/-- A parsed TOML document: section name to section. -/
abbrev ConfigDoc := List (String × ConfigSection)

/-- Errors raised by the configuration subsystem: `FileNotFoundError` from
`open`, `tomllib.TOMLDecodeError` from parsing, and `ValueError` carrying
its message. -/
inductive ConfigError where
  | notFound (path : String)
  | parseError (path : String)
  | valueError (msg : String)
deriving DecidableEq, Repr

/-- Filesystem abstraction: `none` = no file at the path, `some none` =
file exists but is invalid TOML, `some (some d)` = file parses to `d`. -/
abbrev FS := String → Option (Option ConfigDoc)

/-- Process environment: `os.environ` as a partial map. -/
abbrev Env := String → Option String

/-- The ASCII whitespace characters stripped by Python `str.strip()`. -/
def isPySpace (c : Char) : Bool :=
  c = ' ' || c = '\t' || c = '\n' || c = '\r' || c = '\x0b' || c = '\x0c'

/-- Python `s.strip()` (ASCII whitespace). -/
def pyStrip (s : String) : String :=
  ⟨((s.data.dropWhile isPySpace).reverse.dropWhile isPySpace).reverse⟩

/-- Python `str({...})` for a dict of simple (quote- and escape-free)
strings, as interpolated by the f-strings in `validate_zenodo_config`. -/
def reprSection (cs : ConfigSection) : String :=
  "\x7b" ++
    String.intercalate (", ")
      (cs.map (fun kv => "\x27" ++ kv.1 ++ "\x27: \x27" ++ kv.2 ++ "\x27")) ++
  "\x7d"

/-- Constant `default_zenodo` of config.py: the built-in Default Section with its
placeholder values. -/
def default_zenodo : ConfigSection :=
  [(("ZENODO_ACCESS_TOKEN"), ("Change me")),
   (("ZENODO_SANDBOX_ACCESS_TOKEN"), ("Change me"))]

/-- Constant `settings_name` of config.py. -/
def settings_name : String := ".zenodo-deposit-settings.toml"

/-- Function `first_file_that_exists` of config.py: first path of the list for which
`os.path.exists` holds, else `None`. -/
def first_file_that_exists (fsExists : String → Bool) : List String → Option String
  | [] => none
  | f :: fs => if fsExists f then some f else first_file_that_exists fsExists fs

/-- Model of `open(f, "rb")` followed by `toml.load(f)`: `FileNotFoundError` when the
path is absent, `TOMLDecodeError` when the content is invalid, otherwise the
parsed document. -/
def openParse (fs : FS) (f : String) : Except ConfigError ConfigDoc :=
  match fs f with
  | none => .error (.notFound f)
  | some none => .error (.parseError f)
  | some (some d) => .ok d

/-- The `else` branch of `read_config_file`: probe the working-directory
settings file then the home-directory one (`homeSettings` is the expanded
`~/.zenodo-deposit-settings.toml`); fall back to a (deep copy of the)
built-in default under section `"zenodo"`. -/
def read_config_default_locations (fs : FS) (homeSettings : String) :
    Except ConfigError ConfigDoc :=
  match first_file_that_exists (fun p => (fs p).isSome) [settings_name, homeSettings] with
  | some f => openParse fs f
  | none => .ok [(("zenodo"), default_zenodo)]

/-- Function `read_config_file` of config.py.  Python tests the argument with
`if file:`, so an explicit empty-string path falls through to the default
locations exactly like `None`. -/
def read_config_file (fs : FS) (homeSettings : String) (file : Option String) :
    Except ConfigError ConfigDoc :=
  match file with
  | some f =>
      if f = "" then read_config_default_locations fs homeSettings
      else openParse fs f
  | none => read_config_default_locations fs homeSettings

/-- The environment-overlay loop of `config_section`: every key already in
the section is overwritten by the environment variable of the same name
when it exists; no key is added or removed. -/
def env_overlay (env : Env) (cs : ConfigSection) : ConfigSection :=
  cs.map (fun kv => (kv.1, (env kv.1).getD kv.2))

/-- Lines 61–70 of config.py: `config.get(section)`, the falsy test
(`None` or the empty dict), the deep copy (identity at the value level),
and the environment overlay. -/
def extract_section (doc : ConfigDoc) (sectionName : String) (env : Env) :
    Except ConfigError ConfigSection :=
  match List.lookup sectionName doc with
  | none =>
      .error (.valueError (("Section ") ++ sectionName ++
        (" not found in the configuration file")))
  | some cs =>
      if cs = [] then
        .error (.valueError (("Section ") ++ sectionName ++
          (" not found in the configuration file")))
      else .ok (env_overlay env cs)

/-- The body of `config_section` (before `lru_cache` is applied). -/
def config_section_core (fs : FS) (env : Env) (homeSettings : String)
    (config_file : Option String) (sectionName : String) :
    Except ConfigError ConfigSection :=
  match read_config_file fs homeSettings config_file with
  | .error e => .error e
  | .ok config => extract_section config sectionName env

/-- The `lru_cache` table of `config_section`, keyed on the call arguments
`(config_file, section)`. -/
abbrev Cache := List ((Option String × String) × ConfigSection)

/-- Function `config_section` as decorated with `@lru_cache`: on a hit the stored
result is returned and the body (file read, copy, and environment overlay)
never runs; on a miss the body runs and a successful result is stored.
`lru_cache` does not cache raised exceptions. -/
def config_section_cached (fs : FS) (env : Env) (homeSettings : String)
    (cache : Cache) (config_file : Option String) (sectionName : String) :
    Except ConfigError (ConfigSection × Cache) :=
  match List.lookup (config_file, sectionName) cache with
  | some r => .ok (r, cache)
  | none =>
      match config_section_core fs env homeSettings config_file sectionName with
      | .error e => .error e
      | .ok r => .ok (r, ((config_file, sectionName), r) :: cache)

/-- Key selection: `if use_sandbox` selects which token key validation reads. -/
def selected_token_key (use_sandbox : Bool) : String :=
  if use_sandbox then "ZENODO_SANDBOX_ACCESS_TOKEN" else "ZENODO_ACCESS_TOKEN"

/-- The failure test of `validate_zenodo_config`:
`not token or token.strip() == "" or token.strip() == placeholder`
(`config.get` returns `None` for an absent key, and `not token` also
catches the empty string). -/
def py_token_invalid (token : Option String) (placeholder : String) : Bool :=
  match token with
  | none => true
  | some t => t = "" || pyStrip t = "" || pyStrip t = placeholder

/-- Value `default_zenodo["ZENODO_SANDBOX_ACCESS_TOKEN"]`. -/
def sandbox_placeholder : String :=
  (List.lookup ("ZENODO_SANDBOX_ACCESS_TOKEN") default_zenodo).getD ""

/-- Value `default_zenodo["ZENODO_ACCESS_TOKEN"]`. -/
def production_placeholder : String :=
  (List.lookup ("ZENODO_ACCESS_TOKEN") default_zenodo).getD ""

/-- The constant part of the sandbox-mode `ValueError` message (everything
of the f-string before the interpolated config). -/
def sandbox_error_head : String :=
  "ZENODO_SANDBOX_ACCESS_TOKEN is not set or invalid, sandbox being used. Config: "

/-- The constant part of the production-mode `ValueError` message. -/
def production_error_head : String :=
  "ZENODO_ACCESS_TOKEN is not set or invalid in production environment. Config: "

/-- Function `validate_zenodo_config` of config.py, state-passing: the Python
function only reads `config`, so the model returns the section it was
given next to the `True` result.  The `ValueError` messages interpolate
the full config dict. -/
def validate_zenodo_config (config : ConfigSection) (use_sandbox : Bool) :
    Except ConfigError (Bool × ConfigSection) :=
  if use_sandbox then
    if py_token_invalid (List.lookup ("ZENODO_SANDBOX_ACCESS_TOKEN") config)
        sandbox_placeholder then
      .error (.valueError (sandbox_error_head ++ reprSection config))
    else .ok (true, config)
  else
    if py_token_invalid (List.lookup ("ZENODO_ACCESS_TOKEN") config)
        production_placeholder then
      .error (.valueError (production_error_head ++ reprSection config))
    else .ok (true, config)

/-- Function `hide_access_token` of cli.py: first four characters followed by one
asterisk per remaining character. -/
def hide_access_token (token : String) : String :=
  ⟨token.data.take 4⟩ ++ ⟨List.replicate (token.data.length - 4) '*'⟩

/-!
Heap model of `config_section` under `lru_cache`.  Python dicts are
mutable objects; the cache stores a reference, and a hit returns that same
reference.  Addresses are naturals, the heap maps an address to the
section object currently stored there, and the cache maps a call key to
the address of the memoised result.
-/

/-- A heap of allocated section objects; `next` is the next fresh
address. -/
structure Heap where
  next : Nat
  store : Nat → ConfigSection

/-- Allocate a new section object at a fresh address. -/
def Heap.alloc (h : Heap) (v : ConfigSection) : Nat × Heap :=
  (h.next, ⟨h.next + 1, fun i => if i = h.next then v else h.store i⟩)

/-- In-place mutation of the object at address `a` (what a caller does to
the dict it received). -/
def Heap.write (h : Heap) (a : Nat) (v : ConfigSection) : Heap :=
  ⟨h.next, fun i => if i = a then v else h.store i⟩

/-- The `lru_cache` table at the object level: call key to address. -/
abbrev CacheA := List ((Option String × String) × Nat)

/-- Function `config_section` under `lru_cache`, tracking object identity: a hit
returns the address stored by the earlier call (the same dict object); a
miss runs the body, allocates the freshly built dict, and memoises its
address. -/
def config_section_heap (fs : FS) (env : Env) (homeSettings : String)
    (cache : CacheA) (h : Heap) (config_file : Option String)
    (sectionName : String) : Except ConfigError (Nat × CacheA × Heap) :=
  match List.lookup (config_file, sectionName) cache with
  | some a => .ok (a, cache, h)
  | none =>
      match config_section_core fs env homeSettings config_file sectionName with
      | .error e => .error e
      | .ok v =>
          let p := h.alloc v
          .ok (p.1, ((config_file, sectionName), p.1) :: cache, p.2)

/-!
Concrete scenarios used by counterexamples and witnesses.
-/

/-- A filesystem with no settings file anywhere. -/
def noFs : FS := fun _ => none

/-- The expanded `~/.zenodo-deposit-settings.toml` in the scenarios. -/
def homeP : String := "/home/user/.zenodo-deposit-settings.toml"

/-- An environment with nothing set. -/
def noEnv : Env := fun _ => none

/-- An environment that sets only `ZENODO_ACCESS_TOKEN`, to `v`. -/
def envWith (v : String) : Env :=
  fun k => if k = "ZENODO_ACCESS_TOKEN" then some v else none

/-- The section `config_section` builds on the no-file, token-set-to-`v`
scenario. -/
def defaultWithToken (v : String) : ConfigSection :=
  [(("ZENODO_ACCESS_TOKEN"), v), (("ZENODO_SANDBOX_ACCESS_TOKEN"), ("Change me"))]

/-- The cache after one no-file resolution under `envWith "env-one"`. -/
def cacheOne : Cache :=
  [((none, ("zenodo")), defaultWithToken ("env-one"))]

/-- A section whose production token is still the placeholder while a real
sandbox token is stored next to it. -/
def leakConfig : ConfigSection :=
  [(("ZENODO_ACCESS_TOKEN"), ("Change me")),
   (("ZENODO_SANDBOX_ACCESS_TOKEN"), ("supersecret123"))]

/-- The empty heap. -/
def heap0 : Heap := ⟨0, fun _ => []⟩

/-- Component accessors for a heap-model result (defaults on error). -/
def resAddr (r : Except ConfigError (Nat × CacheA × Heap)) : Nat :=
  match r with
  | .ok (a, _, _) => a
  | .error _ => 0

/-- The cache component of a heap-model result. -/
def resCache (r : Except ConfigError (Nat × CacheA × Heap)) : CacheA :=
  match r with
  | .ok (_, c, _) => c
  | .error _ => []

/-- The heap component of a heap-model result. -/
def resHeap (r : Except ConfigError (Nat × CacheA × Heap)) : Heap :=
  match r with
  | .ok (_, _, h) => h
  | .error _ => heap0

/-- First no-file resolution in the mutation scenario. -/
def mutStep1 : Except ConfigError (Nat × CacheA × Heap) :=
  config_section_heap noFs noEnv homeP [] heap0 none ("zenodo")

/-- The first caller mutates the dict it received: it adds key `X`. -/
def mutHeap : Heap :=
  (resHeap mutStep1).write (resAddr mutStep1)
    ((("X"), ("1")) :: (resHeap mutStep1).store (resAddr mutStep1))

/-- Second resolution with the same arguments, after the mutation. -/
def mutStep2 : Except ConfigError (Nat × CacheA × Heap) :=
  config_section_heap noFs noEnv homeP (resCache mutStep1) mutHeap none ("zenodo")

/-- A current-directory settings document, distinct from the home one. -/
def cwdDoc : ConfigDoc := [(("zenodo"), [(("ZENODO_ACCESS_TOKEN"), ("cwd-token"))])]

/-- A home-directory settings document. -/
def homeDoc : ConfigDoc := [(("zenodo"), [(("ZENODO_ACCESS_TOKEN"), ("home-token"))])]

/-- A filesystem where both the current-directory and the home-directory
settings files exist (and nothing else does). -/
def bothFs : FS := fun p =>
  if p = settings_name then some (some cwdDoc)
  else if p = homeP then some (some homeDoc)
  else none

/-!
Helper lemmas shared by the claim theorems.
-/

/-- Lemma: `validate_zenodo_config` reads through `config.get` on the key selected
by the sandbox flag; it fails exactly when `py_token_invalid` holds of that
lookup. -/
lemma validate_error_iff (config : ConfigSection) (sb : Bool) :
    (∃ e, validate_zenodo_config config sb = Except.error e) ↔
      py_token_invalid (List.lookup (selected_token_key sb) config)
        ("Change me") = true := by
  cases sb <;>
    simp only [validate_zenodo_config, selected_token_key, sandbox_placeholder,
      production_placeholder, default_zenodo, List.lookup, Bool.false_eq_true,
      if_false, if_true, reduceIte, Option.getD_some] <;>
    split <;> simp_all

/-- On the non-failing branch, `validate_zenodo_config` returns `True`
together with the untouched section. -/
lemma validate_ok_of (config : ConfigSection) (sb : Bool)
    (h : py_token_invalid (List.lookup (selected_token_key sb) config)
      ("Change me") = false) :
    validate_zenodo_config config sb = Except.ok (true, config) := by
  cases sb
  · rw [show selected_token_key false = ("ZENODO_ACCESS_TOKEN") from rfl] at h
    simp only [validate_zenodo_config,
      show production_placeholder = ("Change me") from rfl]
    simp [h]
  · rw [show selected_token_key true = ("ZENODO_SANDBOX_ACCESS_TOKEN") from rfl] at h
    simp only [validate_zenodo_config,
      show sandbox_placeholder = ("Change me") from rfl]
    simp [h]

/-- The raw failure test, rephrased: the token is absent, blank after
stripping, or the placeholder after stripping (Python's extra `not token`
case `t = ""` is subsumed by stripping). -/
lemma py_token_invalid_iff (token : Option String) :
    py_token_invalid token ("Change me") = true ↔
      token = none ∨ ∃ t, token = some t ∧
        (pyStrip t = "" ∨ pyStrip t = "Change me") := by
  cases token with
  | none => simp [py_token_invalid]
  | some t =>
      constructor
      · intro h
        simp only [py_token_invalid, Bool.or_eq_true, decide_eq_true_eq] at h
        rcases h with (h | h) | h
        · exact Or.inr ⟨t, rfl, Or.inl (by rw [h]; rfl)⟩
        · exact Or.inr ⟨t, rfl, Or.inl h⟩
        · exact Or.inr ⟨t, rfl, Or.inr h⟩
      · intro h
        simp only [py_token_invalid, Bool.or_eq_true, decide_eq_true_eq]
        rcases h with h | ⟨t2, ht2, h | h⟩
        · exact Option.noConfusion h
        · injection ht2 with h3
          subst h3
          exact Or.inl (Or.inr h)
        · injection ht2 with h3
          subst h3
          exact Or.inr h

/-- On the failing branch, `validate_zenodo_config` raises the
mode-specific `ValueError` whose message ends with the interpolated
config. -/
lemma validate_fail_of (config : ConfigSection) (sb : Bool)
    (h : py_token_invalid (List.lookup (selected_token_key sb) config)
      ("Change me") = true) :
    validate_zenodo_config config sb = Except.error (ConfigError.valueError
      ((if sb then sandbox_error_head else production_error_head)
        ++ reprSection config)) := by
  cases sb
  · rw [show selected_token_key false = ("ZENODO_ACCESS_TOKEN") from rfl] at h
    simp only [validate_zenodo_config,
      show production_placeholder = ("Change me") from rfl]
    simp [h]
  · rw [show selected_token_key true = ("ZENODO_SANDBOX_ACCESS_TOKEN") from rfl] at h
    simp only [validate_zenodo_config,
      show sandbox_placeholder = ("Change me") from rfl]
    simp [h]

/-- Environment overlay: lookup of any key in the overlaid section. -/
lemma lookup_env_overlay (env : Env) (cs : ConfigSection) (k : String) :
    List.lookup k (env_overlay env cs) =
      (List.lookup k cs).map (fun v => (env k).getD v) := by
  induction cs with
  | nil => rfl
  | cons kv t ih =>
      obtain ⟨a, b⟩ := kv
      simp only [env_overlay, List.map_cons] at ih ⊢
      by_cases h : k == a
      · have hk : k = a := by simpa using h
        subst hk
        simp [List.lookup, h]
      · simp [List.lookup, h, ih]

/-- Environment overlay: the key list (and its order) is unchanged. -/
lemma keys_env_overlay (env : Env) (cs : ConfigSection) :
    (env_overlay env cs).map Prod.fst = cs.map Prod.fst := by
  simp [env_overlay, List.map_map, Function.comp]

/-!
Claim theorems.
-/

/-- C1: for every resolved section and sandbox flag,
`validate_zenodo_config` raises a `ValueError` exactly when the token key
selected by the flag is absent, blank after stripping, or (after
stripping) the built-in placeholder `"Change me"`; otherwise it succeeds,
returning `True` and the untouched section. -/
theorem validate_fails_iff_placeholder_or_blank
    (config : ConfigSection) (use_sandbox : Bool) :
    ((∃ e, validate_zenodo_config config use_sandbox = Except.error e) ↔
      (List.lookup (selected_token_key use_sandbox) config = none ∨
        ∃ t, List.lookup (selected_token_key use_sandbox) config = some t ∧
          (pyStrip t = "" ∨ pyStrip t = "Change me"))) ∧
    (validate_zenodo_config config use_sandbox = Except.ok (true, config) ∨
      ∃ m, validate_zenodo_config config use_sandbox =
        Except.error (ConfigError.valueError m)) := by
  constructor
  · rw [validate_error_iff]
    exact py_token_invalid_iff _
  · by_cases h : py_token_invalid
        (List.lookup (selected_token_key use_sandbox) config) ("Change me") = true
    · exact Or.inr ⟨_, validate_fail_of config use_sandbox h⟩
    · exact Or.inl (validate_ok_of config use_sandbox (by simpa using h))

/-- C5: the environment overlay preserves the section's key list exactly;
each key's value becomes the same-named environment variable when set and
the section's original value otherwise, so variables whose names are not
section keys never enter the result. -/
theorem env_overlay_keys_and_values (env : Env) (cs : ConfigSection) :
    (env_overlay env cs).map Prod.fst = cs.map Prod.fst ∧
    ∀ k, List.lookup k (env_overlay env cs) =
      (List.lookup k cs).map (fun v => (env k).getD v) :=
  ⟨keys_env_overlay env cs, fun k => lookup_env_overlay env cs k⟩

/-- C7: validation reads only the token key selected by the sandbox flag:
two sections agreeing on that key fail (or succeed) together, whatever
their other entries — including the unselected token key — contain. -/
theorem validate_depends_only_on_selected_key
    (c1 c2 : ConfigSection) (sb : Bool)
    (h : List.lookup (selected_token_key sb) c1 =
      List.lookup (selected_token_key sb) c2) :
    ((∃ e, validate_zenodo_config c1 sb = Except.error e) ↔
      (∃ e, validate_zenodo_config c2 sb = Except.error e)) := by
  rw [validate_error_iff, validate_error_iff, h]

/-- Witness for C7: a production-token-only section and one that adds an
empty (invalid) sandbox token validate identically in production mode. -/
def prodOnlyConfig : ConfigSection := [(("ZENODO_ACCESS_TOKEN"), ("abc123"))]

/-- The same production token next to an invalid sandbox token. -/
def prodPlusBadSandbox : ConfigSection :=
  [(("ZENODO_ACCESS_TOKEN"), ("abc123")), (("ZENODO_SANDBOX_ACCESS_TOKEN"), (""))]

theorem validate_depends_only_on_selected_key_witness :
    ((∃ e, validate_zenodo_config prodOnlyConfig false = Except.error e) ↔
      (∃ e, validate_zenodo_config prodPlusBadSandbox false = Except.error e)) :=
  validate_depends_only_on_selected_key prodOnlyConfig prodPlusBadSandbox false (by rfl)

/-- C9: when validation passes it returns `True` paired with the very
section it was given — no key is added, removed, or changed. -/
theorem validate_success_frame (config : ConfigSection) (sb : Bool)
    (r : Bool × ConfigSection)
    (h : validate_zenodo_config config sb = Except.ok r) : r = (true, config) := by
  by_cases hf : py_token_invalid
      (List.lookup (selected_token_key sb) config) ("Change me") = true
  · rw [validate_fail_of config sb hf] at h
    exact Except.noConfusion h
  · rw [validate_ok_of config sb (by simpa using hf)] at h
    injection h with h2
    exact h2.symm

/-- A section holding a real production token. -/
def realConfig : ConfigSection := [(("ZENODO_ACCESS_TOKEN"), ("abc123"))]

theorem validate_success_frame_witness :
    validate_zenodo_config realConfig false = Except.ok (true, realConfig) ∧
    ((true, realConfig) : Bool × ConfigSection) = (true, realConfig) :=
  ⟨by rfl, validate_success_frame realConfig false (true, realConfig) (by rfl)⟩

/-- C8: extracting an absent section raises a `ValueError` whose message
contains the requested section name. -/
theorem extract_section_missing_names_section
    (doc : ConfigDoc) (sectionName : String) (env : Env)
    (h : List.lookup sectionName doc = none) :
    extract_section doc sectionName env =
      Except.error (ConfigError.valueError (("Section ") ++ sectionName ++
        (" not found in the configuration file"))) ∧
    List.IsInfix sectionName.data
      ((("Section ") ++ sectionName ++
        (" not found in the configuration file")).data) := by
  constructor
  · simp [extract_section, h]
  · exact ⟨("Section ").data, (" not found in the configuration file").data, by
      simp [String.data_append]⟩

theorem extract_section_missing_names_section_witness :
    extract_section cwdDoc ("nonexistent") noEnv =
      Except.error (ConfigError.valueError (("Section ") ++ ("nonexistent") ++
        (" not found in the configuration file"))) ∧
    List.IsInfix ("nonexistent").data
      ((("Section ") ++ ("nonexistent") ++
        (" not found in the configuration file")).data) :=
  extract_section_missing_names_section cwdDoc ("nonexistent") noEnv (by rfl)

/-- C10: a section that is present but empty is rejected by the same falsy
test as an absent one, with the identical section-not-found `ValueError`:
at the interface the two cases are indistinguishable. -/
theorem extract_section_empty_treated_as_missing
    (doc doc2 : ConfigDoc) (sectionName : String) (env : Env)
    (h : List.lookup sectionName doc = some [])
    (h2 : List.lookup sectionName doc2 = none) :
    extract_section doc sectionName env =
      Except.error (ConfigError.valueError (("Section ") ++ sectionName ++
        (" not found in the configuration file"))) ∧
    extract_section doc sectionName env = extract_section doc2 sectionName env := by
  constructor
  · simp [extract_section, h]
  · simp [extract_section, h, h2]

/-- A document whose `zenodo` section is present but empty. -/
def emptySectionDoc : ConfigDoc := [(("zenodo"), [])]

theorem extract_section_empty_treated_as_missing_witness :
    extract_section emptySectionDoc ("zenodo") noEnv =
      Except.error (ConfigError.valueError (("Section ") ++ ("zenodo") ++
        (" not found in the configuration file"))) ∧
    extract_section emptySectionDoc ("zenodo") noEnv =
      extract_section [] ("zenodo") noEnv :=
  extract_section_empty_treated_as_missing emptySectionDoc [] ("zenodo") noEnv
    (by rfl) (by rfl)

/-- C2 (amended): the environment overlay runs only on a cache miss.  On a
hit, `config_section` returns the stored result — overlay included — for
every current environment: environment changes between two calls with
identical arguments are not observed. -/
theorem config_section_cache_hit_ignores_env
    (fs : FS) (env env2 : Env) (home : String) (cache : Cache)
    (file : Option String) (sect : String) (r : ConfigSection)
    (h : List.lookup (file, sect) cache = some r) :
    config_section_cached fs env home cache file sect = Except.ok (r, cache) ∧
    config_section_cached fs env2 home cache file sect =
      config_section_cached fs env home cache file sect := by
  constructor <;> simp [config_section_cached, h]

theorem config_section_cache_hit_ignores_env_witness :
    config_section_cached noFs (envWith ("env-two")) homeP cacheOne
        none ("zenodo") =
      Except.ok (defaultWithToken ("env-one"), cacheOne) ∧
    config_section_cached noFs noEnv homeP cacheOne none ("zenodo") =
      config_section_cached noFs (envWith ("env-two")) homeP cacheOne
        none ("zenodo") :=
  config_section_cache_hit_ignores_env noFs (envWith ("env-two")) noEnv homeP
    cacheOne none ("zenodo") (defaultWithToken ("env-one")) (by rfl)

/-- C2 counterexample: with `ZENODO_ACCESS_TOKEN=env-one` in the
environment, a first no-file resolution returns and caches the token
`env-one`; after the environment changes to `env-two`, the second call
with identical arguments still returns `env-one` — not the value of the
environment at the time of the second call. -/
theorem config_section_overlay_cached_cex :
    config_section_cached noFs (envWith ("env-one")) homeP [] none ("zenodo") =
      Except.ok (defaultWithToken ("env-one"), cacheOne) ∧
    config_section_cached noFs (envWith ("env-two")) homeP cacheOne
        none ("zenodo") =
      Except.ok (defaultWithToken ("env-one"), cacheOne) ∧
    List.lookup ("ZENODO_ACCESS_TOKEN") (defaultWithToken ("env-one")) =
      some ("env-one") ∧
    envWith ("env-two") ("ZENODO_ACCESS_TOKEN") = some ("env-two") ∧
    ("env-one" : String) ≠ ("env-two") := by
  exact ⟨rfl, rfl, rfl, rfl, by decide⟩

/-- C3 (amended): a resolution never mutates any previously allocated
mapping — a cache miss allocates the freshly built section at a fresh
address and leaves every other address (and the immutable built-in
`default_zenodo`, of which the no-file path stores a copy) untouched.
But a cache hit returns the address memoised by the earlier call, i.e. the
same object, so a mutation made by the first caller is visible through a
second resolution with the same arguments. -/
theorem config_section_aliasing_and_fresh_alloc
    (fs : FS) (env : Env) (home : String) (cache : CacheA) (h : Heap)
    (file : Option String) (sect : String) :
    (∀ a, List.lookup (file, sect) cache = some a →
      config_section_heap fs env home cache h file sect =
        Except.ok (a, cache, h)) ∧
    (∀ v, List.lookup (file, sect) cache = none →
      config_section_core fs env home file sect = Except.ok v →
      config_section_heap fs env home cache h file sect =
        Except.ok (h.next, ((file, sect), h.next) :: cache, (h.alloc v).2) ∧
      (h.alloc v).2.store h.next = v ∧
      ∀ b, b ≠ h.next → (h.alloc v).2.store b = h.store b) := by
  constructor
  · intro a ha
    simp [config_section_heap, ha]
  · intro v hn hc
    refine ⟨by simp [config_section_heap, hn, hc, Heap.alloc], ?_, ?_⟩
    · simp [Heap.alloc]
    · intro b hb
      simp [Heap.alloc, hb]

theorem config_section_aliasing_and_fresh_alloc_witness :
    config_section_heap noFs noEnv homeP (resCache mutStep1) mutHeap
        none ("zenodo") =
      Except.ok (0, resCache mutStep1, mutHeap) :=
  (config_section_aliasing_and_fresh_alloc noFs noEnv homeP (resCache mutStep1)
    mutHeap none ("zenodo")).1 0 (by rfl)

/-- C3 counterexample: after a first no-file resolution, the caller adds
key `X` to the dict it received; a second resolution with the same
arguments returns the same cached object, so its mapping does contain the
mutation (while the built-in default itself never gained an `X`). -/
theorem config_section_mutation_visible_cex :
    resAddr mutStep2 = resAddr mutStep1 ∧
    List.lookup ("X") ((resHeap mutStep2).store (resAddr mutStep2)) =
      some ("1") ∧
    List.lookup ("X") default_zenodo = none := by
  exact ⟨rfl, rfl, rfl⟩

/-- C4 (amended): every `ValueError` raised by validation carries the
mode-specific message followed by the interpolation of the whole
configuration section — stored token values included; masking
(`hide_access_token`) is applied only in the CLI's debug logging, not
here. -/
theorem validate_error_message_embeds_config
    (config : ConfigSection) (sb : Bool) (e : ConfigError)
    (h : validate_zenodo_config config sb = Except.error e) :
    e = ConfigError.valueError
      ((if sb then sandbox_error_head else production_error_head)
        ++ reprSection config) := by
  by_cases hf : py_token_invalid
      (List.lookup (selected_token_key sb) config) ("Change me") = true
  · rw [validate_fail_of config sb hf] at h
    injection h with h2
    exact h2.symm
  · rw [validate_ok_of config sb (by simpa using hf)] at h
    exact Except.noConfusion h

/-- The concrete leaked message of the `leakConfig` scenario. -/
def leakMsg : String := production_error_head ++ reprSection leakConfig

theorem validate_error_message_embeds_config_witness :
    ConfigError.valueError leakMsg = ConfigError.valueError
      ((if false then sandbox_error_head else production_error_head)
        ++ reprSection leakConfig) :=
  validate_error_message_embeds_config leakConfig false
    (ConfigError.valueError leakMsg) (by rfl)

/-- Message extractor for a validation result (empty when no `ValueError`
was raised). -/
def errMsgOf (r : Except ConfigError (Bool × ConfigSection)) : String :=
  match r with
  | Except.error (ConfigError.valueError m) => m
  | _ => ""

set_option maxRecDepth 10000 in
/-- C4 counterexample: `leakConfig` stores the real sandbox token
`supersecret123`; production-mode validation fails (placeholder production
token) and the raised error's message contains that stored token value
verbatim. -/
theorem validate_error_leaks_token_cex :
    List.lookup ("ZENODO_SANDBOX_ACCESS_TOKEN") leakConfig =
      some ("supersecret123") ∧
    errMsgOf (validate_zenodo_config leakConfig false) ≠ "" ∧
    List.IsInfix (("supersecret123").data)
      ((errMsgOf (validate_zenodo_config leakConfig false)).data) := by
  refine ⟨rfl, by decide, by decide⟩

/-- C6 (amended): source selection in `read_config_file` short-circuits in
order — a provided non-empty explicit path is read directly with no
existence check; a provided empty-string path is falsy in Python and falls
through to discovery, exactly like `None`; discovery then prefers the
current-directory settings file whenever it exists (regardless of the home
file), else the home-directory file if it exists, else the built-in
default. -/
theorem read_config_discovery_order (fs : FS) (home : String) (f : String) :
    (f ≠ "" → read_config_file fs home (some f) = openParse fs f) ∧
    (read_config_file fs home (some ("")) =
      read_config_default_locations fs home) ∧
    (read_config_file fs home none = read_config_default_locations fs home) ∧
    ((fs settings_name).isSome = true →
      read_config_default_locations fs home = openParse fs settings_name) ∧
    ((fs settings_name).isSome = false → (fs home).isSome = true →
      read_config_default_locations fs home = openParse fs home) ∧
    ((fs settings_name).isSome = false → (fs home).isSome = false →
      read_config_default_locations fs home =
        Except.ok [(("zenodo"), default_zenodo)]) := by
  refine ⟨?_, rfl, rfl, ?_, ?_, ?_⟩
  · intro hf
    simp [read_config_file, hf]
  · intro h1
    simp [read_config_default_locations, first_file_that_exists, h1]
  · intro h1 h2
    simp [read_config_default_locations, first_file_that_exists, h1, h2]
  · intro h1 h2
    simp [read_config_default_locations, first_file_that_exists, h1, h2]

theorem read_config_discovery_order_witness :
    read_config_file bothFs homeP (some ("/etc/zenodo.toml")) =
      openParse bothFs ("/etc/zenodo.toml") ∧
    read_config_default_locations bothFs homeP =
      openParse bothFs settings_name ∧
    read_config_file bothFs homeP none = Except.ok cwdDoc :=
  ⟨(read_config_discovery_order bothFs homeP ("/etc/zenodo.toml")).1 (by decide),
   (read_config_discovery_order bothFs homeP ("x")).2.2.2.1 (by rfl),
   by rfl⟩

/-- C6 counterexample: with both settings files on disk, an explicit
empty-string path is not selected (its read would raise
`FileNotFoundError`); the code instead falls through to discovery and
returns the current-directory document. -/
theorem read_config_empty_explicit_cex :
    read_config_file bothFs homeP (some ("")) = Except.ok cwdDoc ∧
    openParse bothFs ("") = Except.error (ConfigError.notFound ("")) ∧
    (Except.ok cwdDoc : Except ConfigError ConfigDoc) ≠
      Except.error (ConfigError.notFound ("")) := by
  refine ⟨rfl, rfl, by simp⟩
